import Mathlib

/-
Verification of the carbon-footprint tracker core (app.py): the emission
factor calculator, the footprint entry store, the streak tracker and the
dashboard statistics aggregator.

Modelling conventions:
  * Calendar dates are absolute day numbers (`Int`); the Python code's
    `(entry_date - last_entry_date).days` is plain `Int` subtraction.
  * Python floats are embedded as exact rationals (`ℚ`); every emission
    factor literal (0.4, 5.3, 0.0002, 8.887, 0.17, 500, 1600, 3.0, 0.7,
    0.2) is representable exactly.
  * The raw-input dictionary passed to `calculate_total_carbon` is a
    fixed-shape record of `Option ℚ` fields: `none` models an absent key
    (`data.get(k)` returning `None`); Python truthiness of
    `data.get(k)` is `qget k ≠ 0`.
  * The SQLite store is a `DBState`: a list of entry rows (inserts
    append) plus a map from user id to an optional streak row.
-/

set_option autoImplicit false

namespace CarbonTracker

/-! ## Streak tracker (`user_streaks` row, `update_user_streak`) -/

/-- One row of the `user_streaks` table, as read and written by
`update_user_streak`. `last_entry_date = none` models a NULL
`last_entry_date` column. -/
structure StreakRecord where
  current_streak : Nat
  longest_streak : Nat
  last_entry_date : Option Int
  total_entries : Nat
  deriving Repr, DecidableEq

/-- The streak row inserted by `register_user` (and by `init_database` for
the admin user): `INSERT INTO user_streaks (user_id) VALUES (?)` leaves
every other column at its declared default, i.e. `current_streak = 0`,
`longest_streak = 0`, `last_entry_date` NULL, `total_entries = 0`. -/
def initStreakRecord : StreakRecord :=
  { current_streak := 0, longest_streak := 0, last_entry_date := none, total_entries := 0 }

/-- Embedding of `update_user_streak(user_id, entry_date)` restricted to the
one user's streak row: input is the existing row (or `none` when no row
exists), output is the row after the call.  Mirrors app.py lines 225-272:
missing row inserts `(1, 1, entry_date, 1)`; `days_diff == 1` increments
`current_streak`; `days_diff == 0` returns without touching the row;
any other difference (a gap, or a backdated entry) resets
`current_streak` to 1; on every updating path `longest_streak` becomes
`max(longest_streak, current_streak)`, `total_entries` grows by 1 and
`last_entry_date` becomes `entry_date`. -/
def update_user_streak (row : Option StreakRecord) (entry_date : Int) : StreakRecord :=
  match row with
  | none =>
      { current_streak := 1, longest_streak := 1,
        last_entry_date := some entry_date, total_entries := 1 }
  | some s =>
      match s.last_entry_date with
      | some last =>
          let days_diff := entry_date - last
          if days_diff = 1 then
            let cur := s.current_streak + 1
            { current_streak := cur, longest_streak := max s.longest_streak cur,
              last_entry_date := some entry_date, total_entries := s.total_entries + 1 }
          else if days_diff = 0 then
            s
          else
            { current_streak := 1, longest_streak := max s.longest_streak 1,
              last_entry_date := some entry_date, total_entries := s.total_entries + 1 }
      | none =>
          { current_streak := 1, longest_streak := max s.longest_streak 1,
            last_entry_date := some entry_date, total_entries := s.total_entries + 1 }

/-- Folding a sequence of entry dates through `update_user_streak`,
starting from a user with no streak row (the lazy-creation path). -/
def record_entries (dates : List Int) : Option StreakRecord :=
  dates.foldl (fun r d => some (update_user_streak r d)) none

/-- The streak rows reachable in the running system: the row created at
registration, the row lazily created by the first `update_user_streak`
call when none exists, and anything obtained from a reachable row by a
further `update_user_streak` call. -/
inductive ReachableStreak : StreakRecord → Prop
  | registered : ReachableStreak initStreakRecord
  | lazy (d : Int) : ReachableStreak (update_user_streak none d)
  | step (s : StreakRecord) (d : Int) :
      ReachableStreak s → ReachableStreak (update_user_streak (some s) d)

/-! ## Emission factor calculator -/

/-- The raw-input dictionary handed to `calculate_total_carbon` /
`save_carbon_footprint`: each field is `none` when the key is absent.
(The `date` key is passed separately to the store operations.) -/
structure CarbonData where
  electricity_kwh : Option ℚ
  natural_gas_therms : Option ℚ
  water_gallons : Option ℚ
  car_miles : Option ℚ
  public_transit_miles : Option ℚ
  flights_short_haul : Option ℚ
  flights_long_haul : Option ℚ
  meat_servings : Option ℚ
  dairy_servings : Option ℚ
  veg_servings : Option ℚ
  deriving Repr, DecidableEq

/-- `data.get(k, 0)` — the value of an optional field, defaulting to 0. -/
def qget (o : Option ℚ) : ℚ := o.getD 0

/-- Python truthiness of `data.get(k)`: the key is present with a nonzero
value (both `None` and `0` are falsy). -/
def truthy (o : Option ℚ) : Prop := qget o ≠ 0

instance truthyDec (o : Option ℚ) : Decidable (truthy o) :=
  inferInstanceAs (Decidable (qget o ≠ 0))

/-- `calculate_electricity_carbon(kwh)`: kWh × 0.4. -/
def calculate_electricity_carbon (kwh : ℚ) : ℚ := kwh * 0.4

/-- `calculate_natural_gas_carbon(therms)`: therms × 5.3. -/
def calculate_natural_gas_carbon (therms : ℚ) : ℚ := therms * 5.3

/-- `calculate_water_carbon(gallons)`: gallons × 0.0002. -/
def calculate_water_carbon (gallons : ℚ) : ℚ := gallons * 0.0002

/-- `calculate_car_carbon(miles, efficiency=25)`: (miles / efficiency) ×
8.887.  The default efficiency 25 is what `calculate_total_carbon`
passes (implicitly). -/
def calculate_car_carbon (miles efficiency : ℚ) : ℚ :=
  (miles / efficiency) * 8.887

/-- `calculate_public_transit_carbon(miles)`: miles × 0.17. -/
def calculate_public_transit_carbon (miles : ℚ) : ℚ := miles * 0.17

/-- `calculate_flight_carbon(short, long)`: short × 500 + long × 1600. -/
def calculate_flight_carbon (short_flights long_flights : ℚ) : ℚ :=
  short_flights * 500 + long_flights * 1600

/-- `calculate_food_carbon(meat, dairy, veg)`: meat × 3.0 + dairy × 0.7 +
veg × 0.2. -/
def calculate_food_carbon (meat_servings dairy_servings veg_servings : ℚ) : ℚ :=
  meat_servings * 3.0 + dairy_servings * 0.7 + veg_servings * 0.2

/-- `calculate_total_carbon(data)`: starting from `total = 0`, each
category's contribution is added when its truthiness guard holds, exactly
as in app.py lines 313-337 (the sequential `total += ...` accumulations
are rendered as a sum of guarded terms). -/
def calculate_total_carbon (d : CarbonData) : ℚ :=
  (if truthy d.electricity_kwh then
      calculate_electricity_carbon (qget d.electricity_kwh) else 0)
  + (if truthy d.natural_gas_therms then
      calculate_natural_gas_carbon (qget d.natural_gas_therms) else 0)
  + (if truthy d.water_gallons then
      calculate_water_carbon (qget d.water_gallons) else 0)
  + (if truthy d.car_miles then
      calculate_car_carbon (qget d.car_miles) 25 else 0)
  + (if truthy d.public_transit_miles then
      calculate_public_transit_carbon (qget d.public_transit_miles) else 0)
  + (if truthy d.flights_short_haul ∨ truthy d.flights_long_haul then
      calculate_flight_carbon (qget d.flights_short_haul) (qget d.flights_long_haul) else 0)
  + (if truthy d.meat_servings ∨ truthy d.dairy_servings ∨ truthy d.veg_servings then
      calculate_food_carbon (qget d.meat_servings) (qget d.dairy_servings)
        (qget d.veg_servings) else 0)

/-- The plain sum of the seven per-category results, with absent fields
taken as 0 — the spec's `Σ category_factor × quantity` reading of the
total. -/
def categorySum (d : CarbonData) : ℚ :=
  calculate_electricity_carbon (qget d.electricity_kwh)
  + calculate_natural_gas_carbon (qget d.natural_gas_therms)
  + calculate_water_carbon (qget d.water_gallons)
  + calculate_car_carbon (qget d.car_miles) 25
  + calculate_public_transit_carbon (qget d.public_transit_miles)
  + calculate_flight_carbon (qget d.flights_short_haul) (qget d.flights_long_haul)
  + calculate_food_carbon (qget d.meat_servings) (qget d.dairy_servings) (qget d.veg_servings)

/-- All present raw quantities are non-negative. -/
def NonnegData (d : CarbonData) : Prop :=
  0 ≤ qget d.electricity_kwh ∧ 0 ≤ qget d.natural_gas_therms ∧
  0 ≤ qget d.water_gallons ∧ 0 ≤ qget d.car_miles ∧
  0 ≤ qget d.public_transit_miles ∧ 0 ≤ qget d.flights_short_haul ∧
  0 ≤ qget d.flights_long_haul ∧ 0 ≤ qget d.meat_servings ∧
  0 ≤ qget d.dairy_servings ∧ 0 ≤ qget d.veg_servings

/-- The all-absent input record. -/
def emptyData : CarbonData :=
  { electricity_kwh := none, natural_gas_therms := none, water_gallons := none,
    car_miles := none, public_transit_miles := none, flights_short_haul := none,
    flights_long_haul := none, meat_servings := none, dairy_servings := none,
    veg_servings := none }

/-! ## Footprint entry store (`carbon_footprint` table) -/

/-- One row of the `carbon_footprint` table: the raw numeric columns
(each with SQL default 0), the entry date and the denormalized
`total_carbon` written once at insert time. -/
structure FootprintEntry where
  user_id : Nat
  date : Int
  electricity_kwh : ℚ
  natural_gas_therms : ℚ
  water_gallons : ℚ
  car_miles : ℚ
  public_transit_miles : ℚ
  flights_short_haul : ℚ
  flights_long_haul : ℚ
  meat_servings : ℚ
  dairy_servings : ℚ
  veg_servings : ℚ
  total_carbon : ℚ
  deriving Repr, DecidableEq

/-- The raw columns of a stored entry row, repackaged as a (fully
present) calculator input. -/
def entryRawData (e : FootprintEntry) : CarbonData :=
  { electricity_kwh := some e.electricity_kwh,
    natural_gas_therms := some e.natural_gas_therms,
    water_gallons := some e.water_gallons,
    car_miles := some e.car_miles,
    public_transit_miles := some e.public_transit_miles,
    flights_short_haul := some e.flights_short_haul,
    flights_long_haul := some e.flights_long_haul,
    meat_servings := some e.meat_servings,
    dairy_servings := some e.dairy_servings,
    veg_servings := some e.veg_servings }

/-- The row `save_carbon_footprint` inserts: each raw column is
`data.get(k, 0)` and `total_carbon` is `calculate_total_carbon(data)`
computed before the insert. -/
def mkEntry (user_id : Nat) (date : Int) (d : CarbonData) : FootprintEntry :=
  { user_id := user_id, date := date,
    electricity_kwh := qget d.electricity_kwh,
    natural_gas_therms := qget d.natural_gas_therms,
    water_gallons := qget d.water_gallons,
    car_miles := qget d.car_miles,
    public_transit_miles := qget d.public_transit_miles,
    flights_short_haul := qget d.flights_short_haul,
    flights_long_haul := qget d.flights_long_haul,
    meat_servings := qget d.meat_servings,
    dairy_servings := qget d.dairy_servings,
    veg_servings := qget d.veg_servings,
    total_carbon := calculate_total_carbon d }

/-- The database state the core operates on: the `carbon_footprint` rows
in insertion order, and the `user_streaks` row of each user (if any). -/
structure DBState where
  entries : List FootprintEntry
  streaks : Nat → Option StreakRecord

/-- `register_user`'s effect on the streak table: insert a default row
for the new user (app.py lines 167-173). -/
def register_user (st : DBState) (u : Nat) : DBState :=
  { st with streaks := fun v => if v = u then some initStreakRecord else st.streaks v }

/-- `update_user_streak`'s effect on the whole database state: rewrite
the one user's streak row, leave everything else alone. -/
def update_user_streak_db (st : DBState) (u : Nat) (entry_date : Int) : DBState :=
  { st with streaks := fun v =>
      if v = u then some (update_user_streak (st.streaks u) entry_date) else st.streaks v }

/-- `save_carbon_footprint(user_id, data)` with both steps succeeding
(app.py lines 340-375): insert the entry row, then update the streak. -/
def save_carbon_footprint (st : DBState) (u : Nat) (date : Int) (d : CarbonData) : DBState :=
  update_user_streak_db
    { st with entries := st.entries ++ [mkEntry u date d] } u date

/-- `save_carbon_footprint` as actually executed, with the streak step's
success modelled explicitly: the entry insert commits first
(`run_query(..., fetch=False)` commits), then the streak update either
runs or fails; the `except` branch only reports the error, it rolls
nothing back.  Returns the final state and the function's boolean
result. -/
def save_carbon_footprint_run (st : DBState) (u : Nat) (date : Int) (d : CarbonData)
    (streak_ok : Bool) : DBState × Bool :=
  let st1 : DBState := { st with entries := st.entries ++ [mkEntry u date d] }
  if streak_ok then (update_user_streak_db st1 u date, true) else (st1, false)

/-- Descending insertion by date, modelling `ORDER BY date DESC`. -/
def insertByDateDesc (a : FootprintEntry) : List FootprintEntry → List FootprintEntry
  | [] => [a]
  | x :: xs => if a.date ≥ x.date then a :: x :: xs else x :: insertByDateDesc a xs

/-- Sort a row list descending by date (`ORDER BY date DESC`). -/
def sortByDateDesc : List FootprintEntry → List FootprintEntry
  | [] => []
  | x :: xs => insertByDateDesc x (sortByDateDesc xs)

/-- `get_user_footprint_history(user_id)`: the user's rows, descending by
date (app.py lines 377-389). -/
def get_user_footprint_history (st : DBState) (u : Nat) : List FootprintEntry :=
  sortByDateDesc (st.entries.filter fun e => decide (e.user_id = u))

/-! ## Dashboard statistics (`get_dashboard_stats`) -/

/-- Mean of a list of rationals, with the empty list mapped to 0 — the
code guards every pandas `.mean()` with `if not ... .empty else 0`. -/
def listMean (l : List ℚ) : ℚ := if l.isEmpty then 0 else l.sum / l.length

/-- `recent_data`: `history_df[history_df['date'] >= str(last_30_days)]`
with `last_30_days = today - 30` — every row dated on or after
`today - 30`, with no upper bound (app.py line 444). -/
def recent_data (entries : List FootprintEntry) (today : Int) : List FootprintEntry :=
  entries.filter fun e => decide (today - 30 ≤ e.date)

/-- `previous_data`: rows with `prev_30_days <= date < last_30_days`,
i.e. `today - 60 ≤ date < today - 30` (app.py line 445). -/
def previous_data (entries : List FootprintEntry) (today : Int) : List FootprintEntry :=
  entries.filter fun e => decide (today - 60 ≤ e.date ∧ e.date < today - 30)

/-- `stats['recent_avg']` (app.py line 447). -/
def recent_avg (entries : List FootprintEntry) (today : Int) : ℚ :=
  listMean ((recent_data entries today).map fun e => e.total_carbon)

/-- `stats['previous_avg']` (app.py line 448). -/
def previous_avg (entries : List FootprintEntry) (today : Int) : ℚ :=
  listMean ((previous_data entries today).map fun e => e.total_carbon)

/-- `stats['trend']` (app.py line 449). -/
def trend (entries : List FootprintEntry) (today : Int) : String :=
  if recent_avg entries today < previous_avg entries today then "improving"
  else if recent_avg entries today > previous_avg entries today then "worsening"
  else "stable"

/-- Modelled from the spec's words (for comparison with `recent_avg`):
the mean of totals of entries whose date lies in the closed window
`[asOfDate - 29, asOfDate]`. -/
def spec_recent_avg (entries : List FootprintEntry) (asOfDate : Int) : ℚ :=
  listMean ((entries.filter fun e =>
    decide (asOfDate - 29 ≤ e.date ∧ e.date ≤ asOfDate)).map fun e => e.total_carbon)

/-- Modelled from the spec's words (for comparison with `previous_avg`):
the mean of totals of entries whose date lies in the closed window
`[asOfDate - 59, asOfDate - 30]`. -/
def spec_previous_avg (entries : List FootprintEntry) (asOfDate : Int) : ℚ :=
  listMean ((entries.filter fun e =>
    decide (asOfDate - 59 ≤ e.date ∧ e.date ≤ asOfDate - 30)).map fun e => e.total_carbon)

/-- An entry row with the given user, date and stored total, all raw
columns 0 — convenient for concrete statistics examples. -/
def simpleEntry (u : Nat) (d : Int) (t : ℚ) : FootprintEntry :=
  { user_id := u, date := d, electricity_kwh := 0, natural_gas_therms := 0,
    water_gallons := 0, car_miles := 0, public_transit_miles := 0,
    flights_short_haul := 0, flights_long_haul := 0, meat_servings := 0,
    dairy_servings := 0, veg_servings := 0, total_carbon := t }

/-- The input `{electricity_kwh: 100}` from the testable properties. -/
def dataElectricity100 : CarbonData :=
  { electricity_kwh := some 100, natural_gas_therms := none, water_gallons := none,
    car_miles := none, public_transit_miles := none, flights_short_haul := none,
    flights_long_haul := none, meat_servings := none, dairy_servings := none,
    veg_servings := none }

/-- The input `{car_miles: 250}` from the testable properties. -/
def dataCar250 : CarbonData :=
  { electricity_kwh := none, natural_gas_therms := none, water_gallons := none,
    car_miles := some 250, public_transit_miles := none, flights_short_haul := none,
    flights_long_haul := none, meat_servings := none, dairy_servings := none,
    veg_servings := none }

/-- The input `{flights_short_haul: 1, flights_long_haul: 1}` from the
testable properties. -/
def dataFlightsOneOne : CarbonData :=
  { electricity_kwh := none, natural_gas_therms := none, water_gallons := none,
    car_miles := none, public_transit_miles := none, flights_short_haul := some 1,
    flights_long_haul := some 1, meat_servings := none, dairy_servings := none,
    veg_servings := none }

/-- An input whose only key is `electricity_kwh`, with an arbitrary
(possibly negative) value. -/
def elecOnly (q : ℚ) : CarbonData :=
  { electricity_kwh := some q, natural_gas_therms := none, water_gallons := none,
    car_miles := none, public_transit_miles := none, flights_short_haul := none,
    flights_long_haul := none, meat_servings := none, dairy_servings := none,
    veg_servings := none }

/-! ## Helper lemmas -/

/-- Unfolding of `update_user_streak` on an existing row whose
`last_entry_date` is non-null. -/
lemma update_some_some (s : StreakRecord) (last : Int) (h : s.last_entry_date = some last)
    (d : Int) :
    update_user_streak (some s) d =
      if d - last = 1 then
        { current_streak := s.current_streak + 1,
          longest_streak := max s.longest_streak (s.current_streak + 1),
          last_entry_date := some d, total_entries := s.total_entries + 1 }
      else if d - last = 0 then s
      else
        { current_streak := 1, longest_streak := max s.longest_streak 1,
          last_entry_date := some d, total_entries := s.total_entries + 1 } := by
  simp only [update_user_streak, h]

/-- Unfolding of `update_user_streak` on an existing row whose
`last_entry_date` is NULL. -/
lemma update_some_none (s : StreakRecord) (h : s.last_entry_date = none) (d : Int) :
    update_user_streak (some s) d =
      { current_streak := 1, longest_streak := max s.longest_streak 1,
        last_entry_date := some d, total_entries := s.total_entries + 1 } := by
  simp only [update_user_streak, h]

/-- A guarded category term equals the unguarded one when the category
function sends 0 to 0: a falsy field has value 0. -/
lemma ite_truthy (o : Option ℚ) (f : ℚ → ℚ) (hf : f 0 = 0) :
    (if truthy o then f (qget o) else 0) = f (qget o) := by
  by_cases h : truthy o
  · rw [if_pos h]
  · rw [if_neg h]
    have h0 : qget o = 0 := by simpa [truthy] using h
    rw [h0, hf]

/-- Two-field variant of `ite_truthy`, for the flight guard. -/
lemma ite_truthy2 (a b : Option ℚ) (f : ℚ → ℚ → ℚ) (hf : f 0 0 = 0) :
    (if truthy a ∨ truthy b then f (qget a) (qget b) else 0) = f (qget a) (qget b) := by
  by_cases h : truthy a ∨ truthy b
  · rw [if_pos h]
  · rw [if_neg h]
    push_neg at h
    have ha0 : qget a = 0 := by simpa [truthy] using h.1
    have hb0 : qget b = 0 := by simpa [truthy] using h.2
    rw [ha0, hb0, hf]

/-- Three-field variant of `ite_truthy`, for the food guard. -/
lemma ite_truthy3 (a b c : Option ℚ) (f : ℚ → ℚ → ℚ → ℚ) (hf : f 0 0 0 = 0) :
    (if truthy a ∨ truthy b ∨ truthy c then f (qget a) (qget b) (qget c) else 0)
      = f (qget a) (qget b) (qget c) := by
  by_cases h : truthy a ∨ truthy b ∨ truthy c
  · rw [if_pos h]
  · rw [if_neg h]
    push_neg at h
    have ha0 : qget a = 0 := by simpa [truthy] using h.1
    have hb0 : qget b = 0 := by simpa [truthy] using h.2.1
    have hc0 : qget c = 0 := by simpa [truthy] using h.2.2
    rw [ha0, hb0, hc0, hf]

/-- The guarded accumulation of `calculate_total_carbon` equals the plain
seven-category sum, on every input. -/
lemma total_eq_categorySum (d : CarbonData) : calculate_total_carbon d = categorySum d := by
  unfold calculate_total_carbon categorySum
  rw [ite_truthy _ _ (by norm_num [calculate_electricity_carbon]),
      ite_truthy _ _ (by norm_num [calculate_natural_gas_carbon]),
      ite_truthy _ _ (by norm_num [calculate_water_carbon]),
      ite_truthy _ (fun m => calculate_car_carbon m 25) (by norm_num [calculate_car_carbon]),
      ite_truthy _ _ (by norm_num [calculate_public_transit_carbon]),
      ite_truthy2 _ _ _ (by norm_num [calculate_flight_carbon]),
      ite_truthy3 _ _ _ _ (by norm_num [calculate_food_carbon])]

/-- Membership through descending insertion. -/
lemma mem_insertByDateDesc (a e : FootprintEntry) (l : List FootprintEntry) :
    e ∈ insertByDateDesc a l ↔ e = a ∨ e ∈ l := by
  induction l with
  | nil => simp [insertByDateDesc]
  | cons x xs ih =>
      unfold insertByDateDesc
      by_cases h : a.date ≥ x.date
      · rw [if_pos h]; simp
      · rw [if_neg h]
        simp [ih]
        tauto

/-- Sorting by date keeps exactly the same rows. -/
lemma mem_sortByDateDesc (e : FootprintEntry) (l : List FootprintEntry) :
    e ∈ sortByDateDesc l ↔ e ∈ l := by
  induction l with
  | nil => simp [sortByDateDesc]
  | cons x xs ih => simp [sortByDateDesc, mem_insertByDateDesc, ih]

/-- `update_user_streak` preserves `current_streak ≤ longest_streak`. -/
lemma update_preserves_inv (s : StreakRecord) (d : Int)
    (hs : s.current_streak ≤ s.longest_streak) :
    (update_user_streak (some s) d).current_streak
      ≤ (update_user_streak (some s) d).longest_streak := by
  cases hlast : s.last_entry_date with
  | none => rw [update_some_none s hlast d]; exact le_max_right _ _
  | some last =>
      rw [update_some_some s last hlast d]
      by_cases h1 : d - last = 1
      · rw [if_pos h1]; exact le_max_right _ _
      · rw [if_neg h1]
        by_cases h0 : d - last = 0
        · rw [if_pos h0]; exact hs
        · rw [if_neg h0]; exact le_max_right _ _

/-! ## Claim theorems -/

/-- Claim C1: for every existing streak row with a non-null
`last_entry_date`, `update_user_streak` with day difference 1 increments
`current_streak` (and bumps `longest_streak` to the max), with
difference 0 leaves the whole row unchanged (`total_entries` included),
and with every other difference — negative, i.e. backdated, included —
resets `current_streak` to 1; on every updating path `total_entries`
grows by 1 and `last_entry_date` becomes the new date.  Consequently
entries on days 1, 2, 3 give current = 3, longest = 3, total = 3, and
entries on days 1, 2, 5 give current = 1 and longest = 2 (with
total = 3, last date = 5). -/
theorem streak_delta_cases :
    (∀ (s : StreakRecord) (last : Int), s.last_entry_date = some last → ∀ d : Int,
      (d - last = 1 → update_user_streak (some s) d =
        { current_streak := s.current_streak + 1,
          longest_streak := max s.longest_streak (s.current_streak + 1),
          last_entry_date := some d, total_entries := s.total_entries + 1 }) ∧
      (d - last = 0 → update_user_streak (some s) d = s) ∧
      (¬ d - last = 0 → ¬ d - last = 1 → update_user_streak (some s) d =
        { current_streak := 1, longest_streak := max s.longest_streak 1,
          last_entry_date := some d, total_entries := s.total_entries + 1 })) ∧
    record_entries [1, 2, 3] = some ⟨3, 3, some 3, 3⟩ ∧
    record_entries [1, 2, 5] = some ⟨1, 2, some 5, 3⟩ := by
  refine ⟨?_, rfl, rfl⟩
  intro s last h d
  rw [update_some_some s last h d]
  refine ⟨fun h1 => by rw [if_pos h1], fun h0 => ?_, fun h0 h1 => by rw [if_neg h1, if_neg h0]⟩
  have hne : ¬ d - last = 1 := fun hc => by rw [h0] at hc; exact absurd hc (by decide)
  rw [if_neg hne, if_pos h0]

/-- Witness for claim C1, at the row (2, 2, day 10, 2) and a new entry on
day 11. -/
theorem streak_delta_witness :
    update_user_streak (some ⟨2, 2, some 10, 2⟩) 11 =
      { current_streak := 2 + 1, longest_streak := max 2 (2 + 1),
        last_entry_date := some 11, total_entries := 2 + 1 } :=
  (streak_delta_cases.1 ⟨2, 2, some 10, 2⟩ 10 rfl 11).1 (by decide)

/-- Claim C2: for non-negative raw inputs `calculate_total_carbon` is the
sum of the seven per-category results; a category whose inputs are all
zero or absent contributes exactly 0; the all-absent input totals 0; and
the three concrete totals of the testable properties hold (electricity
100 kWh gives 40, 250 car miles give 88.87, one short plus one long
flight give 2100). -/
theorem total_carbon_category_sum :
    (∀ d : CarbonData, NonnegData d → calculate_total_carbon d = categorySum d) ∧
    calculate_electricity_carbon 0 = 0 ∧ calculate_natural_gas_carbon 0 = 0 ∧
    calculate_water_carbon 0 = 0 ∧ calculate_car_carbon 0 25 = 0 ∧
    calculate_public_transit_carbon 0 = 0 ∧ calculate_flight_carbon 0 0 = 0 ∧
    calculate_food_carbon 0 0 0 = 0 ∧
    calculate_total_carbon emptyData = 0 ∧
    calculate_total_carbon dataElectricity100 = 40 ∧
    calculate_total_carbon dataCar250 = 88.87 ∧
    calculate_total_carbon dataFlightsOneOne = 2100 := by
  refine ⟨fun d _ => total_eq_categorySum d, ?_, ?_, ?_, ?_, ?_, ?_, ?_, ?_, ?_, ?_, ?_⟩ <;>
    norm_num [total_eq_categorySum, categorySum, emptyData, dataElectricity100, dataCar250,
      dataFlightsOneOne, qget, calculate_electricity_carbon, calculate_natural_gas_carbon,
      calculate_water_carbon, calculate_car_carbon, calculate_public_transit_carbon,
      calculate_flight_carbon, calculate_food_carbon]

/-- Witness for claim C2, at the non-negative input `{electricity_kwh: 100}`. -/
theorem total_carbon_category_sum_witness :
    calculate_total_carbon dataElectricity100 = categorySum dataElectricity100 :=
  total_carbon_category_sum.1 dataElectricity100
    (by norm_num [NonnegData, dataElectricity100, qget])

/-- Counterexample to claim C3: with `asOfDate = 100`, the single entry
dated day 70 (= asOfDate − 30) is counted in the recent mean by the code
(recent = 10, previous = 0), while the claimed windows put it in the
previous mean (recent = 0, previous = 10); and an entry dated day 101,
after `asOfDate`, contributes 8 to the recent mean although the claim
says nothing after `asOfDate` contributes. -/
theorem comparison_window_counterexample :
    recent_avg [simpleEntry 1 70 10] 100 = 10 ∧
    spec_recent_avg [simpleEntry 1 70 10] 100 = 0 ∧
    previous_avg [simpleEntry 1 70 10] 100 = 0 ∧
    spec_previous_avg [simpleEntry 1 70 10] 100 = 10 ∧
    recent_avg [simpleEntry 1 101 8] 100 = 8 ∧
    spec_recent_avg [simpleEntry 1 101 8] 100 = 0 := by
  refine ⟨?_, ?_, ?_, ?_, ?_, ?_⟩ <;>
    norm_num [recent_avg, previous_avg, spec_recent_avg, spec_previous_avg,
      recent_data, previous_data, listMean, simpleEntry]

/-- Claim C3 as amended: the recent mean is over exactly the entries with
date ≥ asOfDate − 30, with no upper bound (future-dated entries count);
the previous mean is over exactly the entries with
asOfDate − 60 ≤ date < asOfDate − 30; the two windows are disjoint; and
an empty window contributes a mean of 0. -/
theorem comparison_windows :
    ∀ (l : List FootprintEntry) (t : Int) (e : FootprintEntry),
      (e ∈ recent_data l t ↔ e ∈ l ∧ t - 30 ≤ e.date) ∧
      (e ∈ previous_data l t ↔ e ∈ l ∧ (t - 60 ≤ e.date ∧ e.date < t - 30)) ∧
      ¬(e ∈ recent_data l t ∧ e ∈ previous_data l t) ∧
      (recent_data l t = [] → recent_avg l t = 0) ∧
      (previous_data l t = [] → previous_avg l t = 0) := by
  intro l t e
  have h1 : e ∈ recent_data l t ↔ e ∈ l ∧ t - 30 ≤ e.date := by
    simp [recent_data, List.mem_filter]
  have h2 : e ∈ previous_data l t ↔ e ∈ l ∧ (t - 60 ≤ e.date ∧ e.date < t - 30) := by
    simp [previous_data, List.mem_filter]
  refine ⟨h1, h2, ?_, ?_, ?_⟩
  · rintro ⟨hr, hp⟩
    have hd1 := (h1.mp hr).2
    have hd2 := (h2.mp hp).2.2
    omega
  · intro h; simp [recent_avg, h, listMean]
  · intro h; simp [previous_avg, h, listMean]

/-- Witness for the amended claim C3, at the empty entry list. -/
theorem comparison_windows_witness : recent_avg [] 0 = 0 :=
  (comparison_windows [] 0 (simpleEntry 1 0 0)).2.2.2.1 rfl

/-- Counterexample to claim C4: the input `{electricity_kwh: -10}` is
not rejected anywhere on the calculation path — `calculate_total_carbon`
returns −4, a negative total, and `save_carbon_footprint` stores the
entry with that negative total. -/
theorem negative_input_not_rejected :
    calculate_total_carbon (elecOnly (-10)) = -4 ∧
    calculate_total_carbon (elecOnly (-10)) < 0 ∧
    (save_carbon_footprint { entries := [], streaks := fun _ => none } 1 0 (elecOnly (-10))).entries
      = [mkEntry 1 0 (elecOnly (-10))] ∧
    (mkEntry 1 0 (elecOnly (-10))).total_carbon = -4 := by
  refine ⟨?_, ?_, rfl, ?_⟩ <;>
    norm_num [total_eq_categorySum, categorySum, elecOnly, qget, mkEntry,
      calculate_electricity_carbon, calculate_natural_gas_carbon, calculate_water_carbon,
      calculate_car_carbon, calculate_public_transit_carbon, calculate_flight_carbon,
      calculate_food_carbon]

/-- Claim C4 as amended: the calculation path performs no validation of
negative raw quantities — a negative value is folded linearly into the
sum, neither clamped to zero nor rejected, and the resulting total is
negative. -/
theorem negative_input_folded :
    ∀ q : ℚ, q < 0 →
      calculate_total_carbon (elecOnly q) = q * 0.4 ∧
      calculate_total_carbon (elecOnly q) < 0 := by
  intro q hq
  have he : calculate_total_carbon (elecOnly q) = q * 0.4 := by
    rw [total_eq_categorySum]
    norm_num [categorySum, elecOnly, qget, calculate_electricity_carbon,
      calculate_natural_gas_carbon, calculate_water_carbon, calculate_car_carbon,
      calculate_public_transit_carbon, calculate_flight_carbon, calculate_food_carbon]
  refine ⟨he, he ▸ mul_neg_of_neg_of_pos hq (by norm_num)⟩

/-- Witness for the amended claim C4, at the input value −10. -/
theorem negative_input_folded_witness :
    calculate_total_carbon (elecOnly (-10)) = -10 * 0.4 ∧
    calculate_total_carbon (elecOnly (-10)) < 0 :=
  negative_input_folded (-10) (by norm_num)

/-- Claim C5: the trend field is `improving` exactly when the recent mean
is strictly below the previous mean, `worsening` exactly when strictly
above, `stable` exactly when equal; and an empty previous window with a
positive recent mean yields `worsening`. -/
theorem trend_characterization :
    ∀ (l : List FootprintEntry) (t : Int),
      ((trend l t = "improving") ↔ recent_avg l t < previous_avg l t) ∧
      ((trend l t = "worsening") ↔ previous_avg l t < recent_avg l t) ∧
      ((trend l t = "stable") ↔ recent_avg l t = previous_avg l t) ∧
      (previous_data l t = [] → 0 < recent_avg l t → trend l t = "worsening") := by
  intro l t
  have hprev : previous_data l t = [] → previous_avg l t = 0 := by
    intro h; simp [previous_avg, h, listMean]
  rcases lt_trichotomy (recent_avg l t) (previous_avg l t) with h | h | h
  · have ht : trend l t = "improving" := by simp only [trend, if_pos h]
    refine ⟨⟨fun _ => h, fun _ => ht⟩, ⟨?_, ?_⟩, ⟨?_, ?_⟩, ?_⟩
    · intro hs; rw [ht] at hs; exact absurd hs (by decide)
    · intro hgt; exact absurd h (not_lt.mpr hgt.le)
    · intro hs; rw [ht] at hs; exact absurd hs (by decide)
    · intro heq; exact absurd heq (ne_of_lt h)
    · intro hp hr
      rw [hprev hp] at h
      exact absurd hr (not_lt.mpr h.le)
  · have hnlt1 : ¬ recent_avg l t < previous_avg l t := not_lt.mpr h.ge
    have hnlt2 : ¬ previous_avg l t < recent_avg l t := not_lt.mpr h.le
    have ht : trend l t = "stable" := by
      simp only [trend, if_neg hnlt1, gt_iff_lt, if_neg hnlt2]
    refine ⟨⟨?_, ?_⟩, ⟨?_, ?_⟩, ⟨fun _ => h, fun _ => ht⟩, ?_⟩
    · intro hs; rw [ht] at hs; exact absurd hs (by decide)
    · intro hlt; exact absurd hlt hnlt1
    · intro hs; rw [ht] at hs; exact absurd hs (by decide)
    · intro hlt; exact absurd hlt hnlt2
    · intro hp hr
      rw [hprev hp] at h
      rw [← h] at hr
      exact absurd hr (lt_irrefl _)
  · have ht : trend l t = "worsening" := by
      simp only [trend, if_neg (not_lt.mpr h.le), gt_iff_lt, if_pos h]
    refine ⟨⟨?_, ?_⟩, ⟨fun _ => h, fun _ => ht⟩, ⟨?_, ?_⟩, fun _ _ => ht⟩
    · intro hs; rw [ht] at hs; exact absurd hs (by decide)
    · intro hlt; exact absurd hlt (not_lt.mpr h.le)
    · intro hs; rw [ht] at hs; exact absurd hs (by decide)
    · intro heq; exact absurd heq (ne_of_gt h)

/-- Witness for claim C5: a single entry dated on asOfDate with positive
total, nothing in the previous window, yields trend `worsening`. -/
theorem trend_characterization_witness : trend [simpleEntry 1 100 5] 100 = "worsening" :=
  (trend_characterization [simpleEntry 1 100 5] 100).2.2.2 rfl
    (by norm_num [recent_avg, recent_data, listMean, simpleEntry])

/-- Claim C6: when the new date equals the non-null stored
`last_entry_date`, `update_user_streak` is a no-op, so a second identical
call leaves the row exactly as it was after the first. -/
theorem record_entry_idempotent :
    ∀ (s : StreakRecord) (d : Int), s.last_entry_date = some d →
      update_user_streak (some s) d = s ∧
      update_user_streak (some (update_user_streak (some s) d)) d
        = update_user_streak (some s) d := by
  intro s d h
  have h1 : update_user_streak (some s) d = s := by
    rw [update_some_some s d h d]
    rw [if_neg (by simp), if_pos (by simp)]
  exact ⟨h1, by rw [h1]; exact h1⟩

/-- Witness for claim C6, at the row (2, 2, day 10, 2) and a duplicate
entry on day 10. -/
theorem record_entry_idempotent_witness :
    update_user_streak (some ⟨2, 2, some 10, 2⟩) 10 = ⟨2, 2, some 10, 2⟩ ∧
    update_user_streak (some (update_user_streak (some ⟨2, 2, some 10, 2⟩) 10)) 10
      = update_user_streak (some ⟨2, 2, some 10, 2⟩) 10 :=
  record_entry_idempotent ⟨2, 2, some 10, 2⟩ 10 rfl

/-- Claim C7: `longest_streak ≥ current_streak` holds for every reachable
streak row — at creation by registration, at lazy creation on a first
entry, and after every further `update_user_streak` call. -/
theorem streak_invariant :
    (∀ s : StreakRecord, ReachableStreak s → s.current_streak ≤ s.longest_streak) ∧
    initStreakRecord.current_streak ≤ initStreakRecord.longest_streak ∧
    (∀ d : Int, (update_user_streak none d).current_streak
      ≤ (update_user_streak none d).longest_streak) ∧
    (∀ (s : StreakRecord) (d : Int), s.current_streak ≤ s.longest_streak →
      (update_user_streak (some s) d).current_streak
        ≤ (update_user_streak (some s) d).longest_streak) := by
  refine ⟨?_, le_refl 0, fun d => le_refl 1, update_preserves_inv⟩
  intro s hs
  induction hs with
  | registered => exact le_refl 0
  | lazy d => exact le_refl 1
  | step s d hs ih => exact update_preserves_inv s d ih

/-- Witness for claim C7, at the freshly registered row. -/
theorem streak_invariant_witness :
    initStreakRecord.current_streak ≤ initStreakRecord.longest_streak :=
  streak_invariant.1 initStreakRecord ReachableStreak.registered

/-- Claim C8: a successful save immediately followed by the per-user
listing returns the saved row; its stored `total_carbon` equals the
calculator total on the input (missing fields taken as 0) and equals the
calculator total recomputed from the stored raw columns; and saving
never modifies previously stored rows (no update path exists in the
model). -/
theorem save_list_roundtrip :
    ∀ (st : DBState) (u : Nat) (date : Int) (d : CarbonData),
      mkEntry u date d ∈ get_user_footprint_history (save_carbon_footprint st u date d) u ∧
      (mkEntry u date d).total_carbon = calculate_total_carbon d ∧
      (mkEntry u date d).total_carbon = calculate_total_carbon (entryRawData (mkEntry u date d)) ∧
      (∀ e, e ∈ st.entries → e ∈ (save_carbon_footprint st u date d).entries) := by
  intro st u date d
  have hentries : (save_carbon_footprint st u date d).entries
      = st.entries ++ [mkEntry u date d] := rfl
  refine ⟨?_, rfl, rfl, ?_⟩
  · rw [get_user_footprint_history, mem_sortByDateDesc, List.mem_filter, hentries]
    exact ⟨List.mem_append_right _ (List.mem_singleton_self _), by simp [mkEntry]⟩
  · intro e he
    rw [hentries]
    exact List.mem_append_left _ he

/-- Witness for claim C8: a pre-existing row survives a later save by
another user. -/
theorem save_list_roundtrip_witness :
    simpleEntry 1 0 1 ∈
      (save_carbon_footprint { entries := [simpleEntry 1 0 1], streaks := fun _ => none }
        2 5 emptyData).entries :=
  (save_list_roundtrip { entries := [simpleEntry 1 0 1], streaks := fun _ => none }
    2 5 emptyData).2.2.2 (simpleEntry 1 0 1) (List.mem_singleton_self _)

/-- Claim C9: the entry row is written before the streak update is
attempted, and a failed streak update rolls nothing back — on the
failing execution the final state still holds the new entry row (and all
earlier rows) while the streak table is unchanged, and the entry rows
written are the same whether the streak step succeeds or fails. -/
theorem save_entry_before_streak :
    ∀ (st : DBState) (u : Nat) (date : Int) (d : CarbonData),
      (save_carbon_footprint_run st u date d false).1.entries
        = st.entries ++ [mkEntry u date d] ∧
      (save_carbon_footprint_run st u date d false).1.streaks = st.streaks ∧
      (save_carbon_footprint_run st u date d false).2 = false ∧
      mkEntry u date d ∈ (save_carbon_footprint_run st u date d false).1.entries ∧
      (save_carbon_footprint_run st u date d true).1.entries
        = (save_carbon_footprint_run st u date d false).1.entries := by
  intro st u date d
  refine ⟨rfl, rfl, rfl, ?_, rfl⟩
  exact List.mem_append_right _ (List.mem_singleton_self _)

/-- Claim C10: registration creates a streak row with
`current_streak = 0`, `longest_streak = 0`, `last_entry_date` NULL and
`total_entries = 0`; and on any row whose `last_entry_date` is NULL the
next `update_user_streak` sets `current_streak = 1`,
`longest_streak = max(longest_streak, 1)`, adds 1 to `total_entries` and
stores the new date. -/
theorem registration_and_first_entry :
    (∀ (st : DBState) (u : Nat), (register_user st u).streaks u = some initStreakRecord) ∧
    initStreakRecord.current_streak = 0 ∧ initStreakRecord.longest_streak = 0 ∧
    initStreakRecord.last_entry_date = none ∧ initStreakRecord.total_entries = 0 ∧
    (∀ (s : StreakRecord) (d : Int), s.last_entry_date = none →
      update_user_streak (some s) d =
        { current_streak := 1, longest_streak := max s.longest_streak 1,
          last_entry_date := some d, total_entries := s.total_entries + 1 }) := by
  refine ⟨?_, rfl, rfl, rfl, rfl, fun s d h => update_some_none s h d⟩
  intro st u
  simp [register_user]

/-- Witness for claim C10, at the registered row and a first entry on
day 7. -/
theorem registration_witness :
    update_user_streak (some initStreakRecord) 7 =
      { current_streak := 1, longest_streak := max initStreakRecord.longest_streak 1,
        last_entry_date := some 7, total_entries := initStreakRecord.total_entries + 1 } :=
  registration_and_first_entry.2.2.2.2.2 initStreakRecord 7 rfl

end CarbonTracker
